import Mathlib

/-!
# Cartoon post-processing pipeline (`src/post-cartoon-vi/post.js`)

A shallow embedding of the two fragment shaders (`fragmentShader`,
`finalFragmentShader`) and of the `Post` class that sequences the captures
and the passes.

Shader arithmetic is modelled over the rationals `ℚ` (exact real-number
semantics of the GLSL expressions, no rounding error).  GLSL built-ins that
are rational functions are defined here; `sqrt`, the tie direction of
`round`, and the shader chunks that are spliced into the program text from
other files (`luma`, `sobel`) are fields of `Glsl`, so every theorem holds
for each choice of them.  Division by zero follows the float quotient where
the shader clamps it (`Glsl.clampDiv`).
-/

namespace PostCartoon

/-! ## GLSL values -/

/-- GLSL `vec2`. -/
structure Vec2 where
  x : ℚ
  y : ℚ
  deriving DecidableEq

/-- GLSL `vec3`. -/
structure Vec3 where
  r : ℚ
  g : ℚ
  b : ℚ
  deriving DecidableEq

/-- GLSL `vec4`. -/
structure Vec4 where
  r : ℚ
  g : ℚ
  b : ℚ
  a : ℚ
  deriving DecidableEq

/-- GLSL `vec3(s)`: the scalar in every channel. -/
def vec3 (s : ℚ) : Vec3 := ⟨s, s, s⟩

/-- The swizzle `.rgb` of a `vec4`. -/
def Vec4.rgb (c : Vec4) : Vec3 := ⟨c.r, c.g, c.b⟩

/-- A `sampler2D`: its size at level 0 (`textureSize(t, 0)`) and the value
`texture(t, uv)` returns at each coordinate. -/
structure Sampler where
  width : ℕ
  height : ℕ
  texel : Vec2 → Vec4

/-- GLSL `vec2(textureSize(t, 0))`. -/
def textureSize (t : Sampler) : Vec2 := ⟨(t.width : ℚ), (t.height : ℚ)⟩

/-- GLSL `texture(t, uv)`. -/
def texture (t : Sampler) (uv : Vec2) : Vec4 := t.texel uv

/-- The parts of the shader program that are not rational functions or are
spliced in from chunks outside this file. -/
structure Glsl where
  /-- GLSL `sqrt`. -/
  sqrt : ℚ → ℚ
  /-- Direction `round` takes at a fraction of exactly one half
  (`true`: up), which GLSL leaves to the implementation. -/
  roundTie : ℚ → Bool
  /-- What `clamp(q, 0., 1.)` yields when `q` is the quotient `0. / 0.`, which
  is not a number. -/
  clampNaN : ℚ
  /-- The chunk `luma` (`../shaders/luma.js`): luminance of a colour. -/
  luma : Vec3 → ℚ
  /-- The chunk `sobel` (`../shaders/sobel.js`):
  `sobel(texture, uv, resolution, width)`. -/
  sobel : Sampler → Vec2 → Vec2 → ℚ → Vec2

/-! ## GLSL built-ins -/

/-- GLSL `clamp(x, lo, hi) = min(max(x, lo), hi)`. -/
def clamp (x lo hi : ℚ) : ℚ := min (max x lo) hi

/-- GLSL `clamp(a / b, 0., 1.)` with the float quotient: for `b = 0` the
quotient is `+inf` when `a > 0`, clamped to 1; `-inf` when `a < 0`, clamped to
0; and not a number when `a = 0`. -/
def Glsl.clampDiv (G : Glsl) (a b : ℚ) : ℚ :=
  if b = 0 then (if 0 < a then 1 else if a < 0 then 0 else G.clampNaN)
  else clamp (a / b) 0 1

/-- GLSL `smoothstep(edge0, edge1, x)`:
`t = clamp((x - edge0) / (edge1 - edge0), 0, 1); t * t * (3 - 2 * t)`. -/
def Glsl.smoothstep (G : Glsl) (edge0 edge1 x : ℚ) : ℚ :=
  let t := G.clampDiv (x - edge0) (edge1 - edge0)
  t * t * (3 - 2 * t)

/-- GLSL `mix(x, y, a) = x * (1 - a) + y * a`. -/
def mix (x y a : ℚ) : ℚ := x * (1 - a) + y * a

/-- GLSL `mix` on `vec3` with a scalar weight. -/
def mix3 (x y : Vec3) (a : ℚ) : Vec3 := ⟨mix x.r y.r a, mix x.g y.g a, mix x.b y.b a⟩

/-- GLSL `step(edge, x)`: `0` if `x < edge`, else `1`. -/
def step (edge x : ℚ) : ℚ := if x < edge then 0 else 1

/-- GLSL `fract(x) = x - floor(x)`. -/
def fract (x : ℚ) : ℚ := x - (⌊x⌋ : ℚ)

/-- GLSL `round(x)`: the nearest integer; at a fraction of exactly one half
the direction is the implementation's. -/
def Glsl.round (G : Glsl) (x : ℚ) : ℤ :=
  if fract x < 1 / 2 then ⌊x⌋
  else if 1 / 2 < fract x then ⌊x⌋ + 1
  else if G.roundTie x then ⌊x⌋ + 1 else ⌊x⌋

/-- GLSL `length` of a `vec2`: `sqrt(x * x + y * y)`. -/
def Glsl.length (G : Glsl) (v : Vec2) : ℚ := G.sqrt (v.x * v.x + v.y * v.y)

/-- The shader's `#define mul(a,b) (b*a)` at its one use, `mul(k_matrix, uv)`:
the row vector `uv` times the matrix, whose columns are `(c0x, c0y)` and
`(c1x, c1y)` (GLSL matrices are column-major). -/
def mul (c0x c0y c1x c1y : ℚ) (uv : Vec2) : Vec2 :=
  ⟨uv.x * c0x + uv.y * c0y, uv.x * c1x + uv.y * c1y⟩

/-- Modelled from the spec: the chunk `../shaders/blend-darken.js` is spliced
into the shader and is not in this file.  Darken is the per-channel minimum of
base and blend; `opacity` weights the blended colour against the base, and the
shader always passes `1.`, where the result is the minimum itself. -/
def blendDarken (base blend : Vec3) (opacity : ℚ) : Vec3 :=
  ⟨min blend.r base.r * opacity + base.r * (1 - opacity),
   min blend.g base.g * opacity + base.g * (1 - opacity),
   min blend.b base.b * opacity + base.b * (1 - opacity)⟩

/-- Modelled from the spec: the chunk `../shaders/blend-screen.js` is spliced
into the shader and is not in this file.  Screen is `1 - (1 - a) * (1 - b)` per
channel; `opacity` weights the blended colour against the base, and the shader
always passes `1.`. -/
def blendScreen (base blend : Vec3) (opacity : ℚ) : Vec3 :=
  ⟨(1 - (1 - base.r) * (1 - blend.r)) * opacity + base.r * (1 - opacity),
   (1 - (1 - base.g) * (1 - blend.g)) * opacity + base.g * (1 - opacity),
   (1 - (1 - base.b) * (1 - blend.b)) * opacity + base.b * (1 - opacity)⟩

/-! ## The composite shader -/

/-- Uniforms of `fragmentShader`. -/
structure Uniforms where
  colorTexture : Sampler
  normalTexture : Sampler
  paperTexture : Sampler
  inkColor : Vec3
  scale : ℚ
  levels : ℚ
  thickness : ℚ
  contour : ℚ
  minLuma : ℚ
  maxLuma : ℚ
  light : ℚ

/-- Values of the locals of `fragmentShader`'s `main`, one field per
assignment.  A local that is assigned twice has two fields: `normalEdge0`
(line 73) and `normalEdge` (line 74), `shadeCol0` (line 80) and `shadeCol`
(line 82), `fragColor0` (line 102) and `fragColor` (lines 103-104). -/
structure MainLocals where
  size : Vec2
  color : Vec4
  normalEdge0 : ℚ
  normalEdge : ℚ
  paper : Vec4
  l0 : ℚ
  l : ℚ
  shadeCol0 : ℚ
  shadeCol : ℚ
  rgbscreen : Vec3
  dots : Vec3
  fragColor0 : Vec3
  fragColor : Vec4

/-- The local `w` of the halftone branch (line 93): `mix(0., 1., thickness)`. -/
def halftone.w (u : Uniforms) : ℚ := mix 0 1 u.thickness

/-- The local `Kuv` of the halftone branch (lines 88-96), with `uv = vUv * size`
and `frequency = .05`. -/
def halftone.Kuv (u : Uniforms) (vUv size : Vec2) : Vec2 :=
  let uv : Vec2 := ⟨vUv.x * size.x, vUv.y * size.y⟩
  let frequency : ℚ := 5 / 100
  let w := halftone.w u
  let m := mul (707 / 1000) (707 / 1000) (-(707 / 1000)) (707 / 1000) uv
  let Kst : Vec2 := ⟨frequency * u.scale * m.x, frequency * u.scale * m.y⟩
  ⟨w * (2 * fract Kst.x - 1), w * (2 * fract Kst.y - 1)⟩

/-- The local `k` of the halftone branch (line 97). -/
def halftone.k (G : Glsl) (u : Uniforms) (vUv size : Vec2) (l0 : ℚ) : ℚ :=
  step 0 (G.sqrt (l0 - (1 - u.light)) - G.length (halftone.Kuv u vUv size))

/-- The variable `dots` after the `if` of lines 86-100. -/
def halftone.dots (G : Glsl) (u : Uniforms) (vUv size : Vec2) (l0 : ℚ) : Vec3 :=
  if l0 > 1 - u.light then vec3 (halftone.k G u vUv size l0) else vec3 0

/-- The body of `fragmentShader`'s `main` (lines 69-105) at the fragment with
interpolated coordinate `vUv`. -/
def fragmentShader.main (G : Glsl) (u : Uniforms) (vUv : Vec2) : MainLocals :=
  let size := textureSize u.colorTexture
  let color := texture u.colorTexture vUv
  let normalEdge0 := 1 - G.length (G.sobel u.normalTexture vUv size u.contour)
  let normalEdge := G.smoothstep (1 / 2 - u.thickness) (1 / 2 + u.thickness) normalEdge0
  let paper := texture u.paperTexture
    ⟨(25 / 100000) * vUv.x * size.x, (25 / 100000) * vUv.y * size.y⟩
  let l0 := G.luma color.rgb
  let l := G.smoothstep u.minLuma u.maxLuma l0
  let shadeCol0 := ((G.round (l * u.levels) : ℤ) : ℚ) / u.levels
  let shadeCol := shadeCol0 * normalEdge
  let rgbscreen := mix3 (vec3 1)
    ⟨u.inkColor.r / 255, u.inkColor.g / 255, u.inkColor.b / 255⟩ (1 - shadeCol)
  let dots := halftone.dots G u vUv size l0
  let fragColor0 := blendDarken paper.rgb rgbscreen 1
  let fragColor1 := blendScreen fragColor0 dots 1
  { size := size, color := color, normalEdge0 := normalEdge0, normalEdge := normalEdge,
    paper := paper, l0 := l0, l := l, shadeCol0 := shadeCol0, shadeCol := shadeCol,
    rgbscreen := rgbscreen, dots := dots, fragColor0 := fragColor0,
    fragColor := ⟨fragColor1.r, fragColor1.g, fragColor1.b, 1⟩ }

/-! ## The finishing shader -/

/-- Values of the locals of `finalFragmentShader`'s `main`. -/
structure FinalLocals where
  value : Vec2
  resolution : Vec2
  uv1 : Vec2
  uv2 : Vec2
  uv3 : Vec2
  c : ℚ
  fragColor : Vec4

/-- The body of `finalFragmentShader`'s `main` (lines 120-132).  `uv1`, `uv2`
and `uv3` are the coordinates of the three `texture` calls.  The statement
`normalize( dir );` discards its result and leaves `dir` as it was. -/
def finalFragmentShader.main (G : Glsl) (colorTexture : Sampler) (delta : ℚ)
    (vUv : Vec2) : FinalLocals :=
  let dir : Vec2 := ⟨vUv.x - 1 / 2, vUv.y - 1 / 2⟩
  let d := (7 / 10) * G.length dir
  let value : Vec2 := ⟨d * dir.x * delta, d * dir.y * delta⟩
  let resolution := textureSize colorTexture
  let uv1 : Vec2 := ⟨vUv.x - value.x / resolution.x, vUv.y - value.y / resolution.x⟩
  let uv2 := vUv
  let uv3 : Vec2 := ⟨vUv.x + value.x / resolution.y, vUv.y + value.y / resolution.y⟩
  let c1 := texture colorTexture uv1
  let c2 := texture colorTexture uv2
  let c3 := texture colorTexture uv3
  let c := G.luma ⟨c1.r, c2.g, c3.b⟩
  { value := value, resolution := resolution, uv1 := uv1, uv2 := uv2, uv3 := uv3,
    c := c, fragColor := ⟨c, c, c, 1⟩ }

/-! ## The `Post` class -/

/-- A material a scene can be drawn with.  `normalMat` is the module constant
`new MeshNormalMaterial({ side: DoubleSide })`; `other n` is any material of
the caller. -/
inductive Material where
  | normalMat
  | other (n : ℕ)
  deriving DecidableEq

/-- A scene as `Post.render` uses it: its contents (a name for them) and the
property `overrideMaterial`, which is `null` (`none`) or a material. -/
structure Scene where
  contents : ℕ
  overrideMaterial : Option Material
  deriving DecidableEq

/-- A camera handed to `Post.render`. -/
structure Camera where
  name : ℕ
  deriving DecidableEq

/-- Modelled from the spec: `../js/FBO.js` is not in this file.  An off-screen
buffer with its pixel dimensions (`create(width, height) -> Buffer`). -/
structure FBO where
  width : ℕ
  height : ℕ
  deriving DecidableEq

/-- Modelled from the spec: `getFBO(w, h)` of `../js/FBO.js`,
`create(width, height) -> Buffer`. -/
def getFBO (w h : ℕ) : FBO := ⟨w, h⟩

/-- Modelled from the spec: `fbo.setSize(w, h)`, `resize(Buffer, width, height)`. -/
def FBO.setSize (_f : FBO) (w h : ℕ) : FBO := ⟨w, h⟩

/-- The two shader programs the constructor builds. -/
inductive Program where
  | composite
  | finishing
  deriving DecidableEq

/-- Modelled from the spec: `../js/ShaderPass.js` is not in this file.  A
full-screen pass: its shader program and the output buffer `fbo` it owns. -/
structure ShaderPass where
  shader : Program
  fbo : FBO
  deriving DecidableEq

/-- Modelled from the spec: `pass.setSize(w, h)` resizes the pass output
buffer. -/
def ShaderPass.setSize (p : ShaderPass) (w h : ℕ) : ShaderPass :=
  { p with fbo := p.fbo.setSize w h }

/-- The buffers `renderer.setRenderTarget` is called with in `post.js`. -/
inductive Target where
  | colorFBO
  | normalFBO
  deriving DecidableEq

/-- What the renderer is asked to draw, in order. -/
inductive Draw where
  /-- The call `renderer.render(scene, camera)`: the render target current at
  the call (`none` is `null`, the visible framebuffer), the scene contents, the
  scene's `overrideMaterial` at the call, and the camera. -/
  | scene (target : Option Target) (contents : ℕ) (overrideMaterial : Option Material)
      (camera : Camera)
  /-- The call `pass.render(final)` of a `ShaderPass`. -/
  | pass (shader : Program) (final : Bool)
  deriving DecidableEq

/-- The renderer as `post.js` drives it: the current render target and the
draws issued so far, oldest first. -/
structure Renderer where
  target : Option Target
  draws : List Draw
  deriving DecidableEq

/-- The call `renderer.setRenderTarget(t)`. -/
def Renderer.setRenderTarget (r : Renderer) (t : Option Target) : Renderer :=
  { r with target := t }

/-- The call `renderer.render(scene, camera)`. -/
def Renderer.render (r : Renderer) (scene : Scene) (camera : Camera) : Renderer :=
  { r with draws := r.draws ++ [Draw.scene r.target scene.contents scene.overrideMaterial camera] }

/-- Modelled from the spec: `pass.render(final)` of `../js/ShaderPass.js`
executes the pass's program once over the render target and returns. -/
def ShaderPass.render (p : ShaderPass) (r : Renderer) (final : Bool) : Renderer :=
  { r with draws := r.draws ++ [Draw.pass p.shader final] }

/-- The object `this.params` of the constructor. -/
structure Params where
  scale : ℚ
  thickness : ℚ
  contour : ℚ
  inkColor : Vec3
  min : ℚ
  max : ℚ
  light : ℚ
  aberration : ℚ
  levels : ℚ

/-- The fields of a `Post` other than the renderer, which is passed along
explicitly. -/
structure Post where
  colorFBO : FBO
  normalFBO : FBO
  params : Params
  renderPass : ShaderPass
  finalPass : ShaderPass

/-- The constructor (lines 136-179).  `new ShaderPass(renderer, shader)` is
called without a size, and the size `(pw, ph)` of the buffer a new pass
allocates is fixed by `ShaderPass.js`, so it is an argument here. -/
def Post.new (pw ph : ℕ) : Post :=
  { colorFBO := getFBO 1 1
    normalFBO := getFBO 1 1
    params :=
      { scale := 3 / 2, thickness := 1, contour := 4, inkColor := ⟨13, 13, 13⟩,
        min := 3 / 10, max := 1, light := 38 / 100, aberration := 20, levels := 100 }
    renderPass := ⟨Program.composite, getFBO pw ph⟩
    finalPass := ⟨Program.finishing, getFBO pw ph⟩ }

/-- The method `setSize(w, h)` (lines 181-186). -/
def Post.setSize (p : Post) (w h : ℕ) : Post :=
  let normalFBO := p.normalFBO.setSize w h
  let colorFBO := p.colorFBO.setSize w h
  let renderPass := p.renderPass.setSize w h
  let finalPass := p.finalPass.setSize w h
  { p with normalFBO := normalFBO, colorFBO := colorFBO, renderPass := renderPass,
           finalPass := finalPass }

/-- The method `render(scene, camera)` (lines 188-199): the `Post`, the
renderer and the scene after the call. -/
def Post.render (p : Post) (r : Renderer) (scene : Scene) (camera : Camera) :
    Post × Renderer × Scene :=
  let r := r.setRenderTarget (some Target.colorFBO)
  let r := r.render scene camera
  let r := r.setRenderTarget none
  let scene := { scene with overrideMaterial := some Material.normalMat }
  let r := r.setRenderTarget (some Target.normalFBO)
  let r := r.render scene camera
  let r := r.setRenderTarget none
  let scene := { scene with overrideMaterial := none }
  let r := p.renderPass.render r true
  (p, r, scene)

/-- The range `[lo, hi]` a tuning control of `generateParams` allows. -/
structure Range where
  lo : ℚ
  hi : ℚ

/-- The range of the control `levels` (line 204): `gui.add(params, "levels", 1, 100)`. -/
def levelsRange : Range := ⟨1, 100⟩

/-- The range of the control `thickness` (line 214):
`gui.add(params, "thickness", 0.0, 3)`. -/
def thicknessRange : Range := ⟨0, 3⟩

/-- A value the control lets through. -/
def Range.allows (r : Range) (v : ℚ) : Prop := r.lo ≤ v ∧ v ≤ r.hi

/-- A call a client makes on a `Post`. -/
inductive Call where
  | setSize (w h : ℕ)
  | render (scene : Scene) (camera : Camera)

/-- One client call on a `Post` and its renderer. -/
def Post.call (s : Post × Renderer) : Call → Post × Renderer
  | Call.setSize w h => (s.1.setSize w h, s.2)
  | Call.render scene camera =>
      let out := s.1.render s.2 scene camera
      (out.1, out.2.1)

/-- A sequence of client calls, first call first. -/
def Post.calls (s : Post × Renderer) (cs : List Call) : Post × Renderer :=
  cs.foldl Post.call s

/-- The four surfaces a `Post` owns, as (width, height) pairs: colour
capture, normal capture, composite pass buffer, finishing pass buffer. -/
def Post.sizes (p : Post) : List (ℕ × ℕ) :=
  [(p.colorFBO.width, p.colorFBO.height), (p.normalFBO.width, p.normalFBO.height),
   (p.renderPass.fbo.width, p.renderPass.fbo.height),
   (p.finalPass.fbo.width, p.finalPass.fbo.height)]

/-! ## Concrete inputs -/

/-- A texture of one colour. -/
def solid (w h : ℕ) (c : Vec4) : Sampler := ⟨w, h, fun _ => c⟩

/-- Opaque white. -/
def white : Vec4 := ⟨1, 1, 1, 1⟩

/-- Opaque black. -/
def black : Vec4 := ⟨0, 0, 0, 1⟩

/-- A concrete `sqrt`: the square root truncated to six decimals (and `0`
below zero). -/
def sqrt6 (x : ℚ) : ℚ := ((Nat.sqrt ⌊x * 10 ^ 12⌋₊ : ℕ) : ℚ) / 10 ^ 6

/-- A concrete `luma`: the Rec. 601 weights `(0.299, 0.587, 0.114)`. -/
def luma601 (c : Vec3) : ℚ := 299 / 1000 * c.r + 587 / 1000 * c.g + 114 / 1000 * c.b

/-- A concrete shader environment in which the normal capture has gradient
`gradient` at every pixel. -/
def glslAt (gradient : Vec2) : Glsl :=
  { sqrt := sqrt6, roundTie := fun _ => true, clampNaN := 0, luma := luma601,
    sobel := fun _ _ _ _ => gradient }

/-- The uniforms as the constructor sets them (lines 152-164), over the given
colour capture, a flat normal capture and white paper, all `w` by `h`. -/
def defaultUniforms (w h : ℕ) (colour : Vec4) : Uniforms :=
  { colorTexture := solid w h colour
    normalTexture := solid w h ⟨1 / 2, 1 / 2, 1, 1⟩
    paperTexture := solid w h white
    inkColor := (Post.new 1 1).params.inkColor
    scale := (Post.new 1 1).params.scale
    levels := (Post.new 1 1).params.levels
    thickness := (Post.new 1 1).params.thickness
    contour := (Post.new 1 1).params.contour
    minLuma := (Post.new 1 1).params.min
    maxLuma := (Post.new 1 1).params.max
    light := (Post.new 1 1).params.light }

/-! ## Facts about the built-ins -/

theorem clamp_unit_nonneg (x : ℚ) : 0 ≤ clamp x 0 1 := by
  unfold clamp
  exact le_min (le_max_right x 0) zero_le_one

theorem clamp_unit_le_one (x : ℚ) : clamp x 0 1 ≤ 1 := by
  unfold clamp
  exact min_le_right _ _

theorem clampDiv_of_ne (G : Glsl) (a b : ℚ) (hb : b ≠ 0) :
    G.clampDiv a b = clamp (a / b) 0 1 := by
  unfold Glsl.clampDiv
  rw [if_neg hb]

theorem clampDiv_of_pos_zero (G : Glsl) (a : ℚ) (ha : 0 < a) : G.clampDiv a 0 = 1 := by
  unfold Glsl.clampDiv
  rw [if_pos rfl, if_pos ha]

theorem smoothstep_nonneg (G : Glsl) (e0 e1 x : ℚ) (he : e0 < e1) :
    0 ≤ G.smoothstep e0 e1 x := by
  unfold Glsl.smoothstep
  rw [clampDiv_of_ne G _ _ (sub_ne_zero.mpr (ne_of_gt he))]
  have h0 := clamp_unit_nonneg ((x - e0) / (e1 - e0))
  have h1 := clamp_unit_le_one ((x - e0) / (e1 - e0))
  simp only
  have : 0 ≤ 3 - 2 * clamp ((x - e0) / (e1 - e0)) 0 1 := by linarith
  positivity

theorem smoothstep_le_one (G : Glsl) (e0 e1 x : ℚ) (he : e0 < e1) :
    G.smoothstep e0 e1 x ≤ 1 := by
  unfold Glsl.smoothstep
  rw [clampDiv_of_ne G _ _ (sub_ne_zero.mpr (ne_of_gt he))]
  have h0 := clamp_unit_nonneg ((x - e0) / (e1 - e0))
  have h1 := clamp_unit_le_one ((x - e0) / (e1 - e0))
  simp only
  nlinarith [mul_nonneg (mul_self_nonneg (1 - clamp ((x - e0) / (e1 - e0)) 0 1))
    (by linarith : (0 : ℚ) ≤ 1 + 2 * clamp ((x - e0) / (e1 - e0)) 0 1)]

theorem round_ge_floor (G : Glsl) (x : ℚ) : ⌊x⌋ ≤ G.round x := by
  unfold Glsl.round
  split_ifs <;> omega

theorem round_nonneg (G : Glsl) (x : ℚ) (hx : 0 ≤ x) : 0 ≤ G.round x :=
  le_trans (Int.floor_nonneg.mpr hx) (round_ge_floor G x)

theorem round_le_of_le (G : Glsl) (x : ℚ) (n : ℤ) (hx : x ≤ n) : G.round x ≤ n := by
  have hfl : ⌊x⌋ ≤ n := Int.floor_le_iff.mpr (by linarith [Int.lt_floor_add_one x, hx])
  have hup : 1 / 2 ≤ fract x → ⌊x⌋ + 1 ≤ n := by
    intro hf
    unfold fract at hf
    have : (⌊x⌋ : ℚ) < n := by linarith
    have : ⌊x⌋ < n := by exact_mod_cast this
    omega
  unfold Glsl.round
  split_ifs with h1 h2 h3
  · exact hfl
  · exact hup (le_of_lt h2)
  · exact hup (not_lt.mp h1)
  · exact hfl

/-! ## C1: shade bands -/

/-- C1 (as stated, refuted): with `levels = 1.6`, a value the `levels`
control (range 1..100, no step) allows, a white pixel gets the quantized shade
`round(1 * 1.6) / 1.6 = 2 / 1.6 = 1.25`, which is above 1 and is not `k / levels`
for an integer `k` in `0..levels`. -/
theorem C1_counterexample :
    levelsRange.allows (8 / 5) ∧
    (fragmentShader.main (glslAt ⟨0, 0⟩)
      { defaultUniforms 1 1 white with levels := 8 / 5 } ⟨1 / 2, 1 / 2⟩).l0 = 1 ∧
    (fragmentShader.main (glslAt ⟨0, 0⟩)
      { defaultUniforms 1 1 white with levels := 8 / 5 } ⟨1 / 2, 1 / 2⟩).shadeCol0 = 5 / 4 ∧
    ¬ (fragmentShader.main (glslAt ⟨0, 0⟩)
      { defaultUniforms 1 1 white with levels := 8 / 5 } ⟨1 / 2, 1 / 2⟩).shadeCol0 ≤ 1 := by
  have hl0 : (fragmentShader.main (glslAt ⟨0, 0⟩)
      { defaultUniforms 1 1 white with levels := 8 / 5 } ⟨1 / 2, 1 / 2⟩).l0 = 1 := by
    norm_num [fragmentShader.main, defaultUniforms, glslAt, luma601, texture, solid, white,
      Vec4.rgb]
  have hs : (fragmentShader.main (glslAt ⟨0, 0⟩)
      { defaultUniforms 1 1 white with levels := 8 / 5 } ⟨1 / 2, 1 / 2⟩).shadeCol0 = 5 / 4 := by
    norm_num [fragmentShader.main, defaultUniforms, glslAt, luma601, texture, solid, white,
      Vec4.rgb, Post.new, Glsl.smoothstep, Glsl.clampDiv, clamp, Glsl.round, fract]
  refine ⟨by norm_num [Range.allows, levelsRange], hl0, hs, ?_⟩
  rw [hs]
  norm_num

/-- C1 (amended): for every pixel, every `minLuma < maxLuma` and every whole
number `levels ≥ 1`, the quantized shade `round(smoothstep(minLuma, maxLuma, l0)
* levels) / levels` is `k / levels` for an integer `k` with `0 ≤ k ≤ levels`,
and so lies in `[0, 1]`. -/
theorem C1_shade_bands (G : Glsl) (u : Uniforms) (vUv : Vec2) (n : ℕ) (hn : 1 ≤ n)
    (hlevels : u.levels = n) (hluma : u.minLuma < u.maxLuma) :
    ∃ k : ℤ, 0 ≤ k ∧ k ≤ n ∧
      (fragmentShader.main G u vUv).shadeCol0 = (k : ℚ) / (n : ℚ) ∧
      0 ≤ (fragmentShader.main G u vUv).shadeCol0 ∧
      (fragmentShader.main G u vUv).shadeCol0 ≤ 1 := by
  have hnpos : (0 : ℚ) < n := by exact_mod_cast hn
  have hl0 := smoothstep_nonneg G u.minLuma u.maxLuma
    (G.luma (texture u.colorTexture vUv).rgb) hluma
  have hl1 := smoothstep_le_one G u.minLuma u.maxLuma
    (G.luma (texture u.colorTexture vUv).rgb) hluma
  set l := G.smoothstep u.minLuma u.maxLuma (G.luma (texture u.colorTexture vUv).rgb) with hl
  have hk0 : 0 ≤ G.round (l * n) := round_nonneg G _ (mul_nonneg hl0 hnpos.le)
  have hk1 : G.round (l * n) ≤ (n : ℤ) := by
    apply round_le_of_le
    have : l * (n : ℚ) ≤ 1 * n := mul_le_mul_of_nonneg_right hl1 hnpos.le
    simpa using this
  have hshade : (fragmentShader.main G u vUv).shadeCol0 = ((G.round (l * n) : ℤ) : ℚ) / (n : ℚ) := by
    simp only [fragmentShader.main, hlevels, hl]
  refine ⟨G.round (l * n), hk0, hk1, hshade, ?_, ?_⟩
  · rw [hshade]
    exact div_nonneg (by exact_mod_cast hk0) hnpos.le
  · rw [hshade, div_le_one hnpos]
    exact_mod_cast hk1

/-- C1 witness: the default `levels = 100` over a white 1x1 capture. -/
theorem C1_shade_bands_witness :
    (1 ≤ 100 ∧ (defaultUniforms 1 1 white).levels = (100 : ℕ) ∧
      (defaultUniforms 1 1 white).minLuma < (defaultUniforms 1 1 white).maxLuma) ∧
    ∃ k : ℤ, 0 ≤ k ∧ k ≤ (100 : ℕ) ∧
      (fragmentShader.main (glslAt ⟨0, 0⟩) (defaultUniforms 1 1 white)
        ⟨1 / 2, 1 / 2⟩).shadeCol0 = (k : ℚ) / ((100 : ℕ) : ℚ) ∧
      0 ≤ (fragmentShader.main (glslAt ⟨0, 0⟩) (defaultUniforms 1 1 white)
        ⟨1 / 2, 1 / 2⟩).shadeCol0 ∧
      (fragmentShader.main (glslAt ⟨0, 0⟩) (defaultUniforms 1 1 white)
        ⟨1 / 2, 1 / 2⟩).shadeCol0 ≤ 1 :=
  ⟨⟨by decide, by norm_num [defaultUniforms, Post.new],
      by norm_num [defaultUniforms, Post.new]⟩,
    C1_shade_bands (glslAt ⟨0, 0⟩) (defaultUniforms 1 1 white) ⟨1 / 2, 1 / 2⟩ 100
      (by decide) (by norm_num [defaultUniforms, Post.new])
      (by norm_num [defaultUniforms, Post.new])⟩

/-! ## C2: the ink mix -/

/-- C2 (as stated, refuted): over a black capture with the default uniforms
(ink colour `(13, 13, 13)`) the shade is 0 and the ink mix is
`(13/255, 13/255, 13/255)`, the ink colour, not white. -/
theorem C2_counterexample :
    (fragmentShader.main (glslAt ⟨0, 0⟩) (defaultUniforms 1 1 black)
      ⟨1 / 2, 1 / 2⟩).shadeCol = 0 ∧
    (fragmentShader.main (glslAt ⟨0, 0⟩) (defaultUniforms 1 1 black)
      ⟨1 / 2, 1 / 2⟩).rgbscreen = ⟨13 / 255, 13 / 255, 13 / 255⟩ ∧
    (fragmentShader.main (glslAt ⟨0, 0⟩) (defaultUniforms 1 1 black)
      ⟨1 / 2, 1 / 2⟩).rgbscreen ≠ vec3 1 := by
  have hs : (fragmentShader.main (glslAt ⟨0, 0⟩) (defaultUniforms 1 1 black)
      ⟨1 / 2, 1 / 2⟩).shadeCol = 0 := by
    norm_num [fragmentShader.main, defaultUniforms, glslAt, luma601, texture, solid, black,
      Vec4.rgb, Post.new, Glsl.smoothstep, Glsl.clampDiv, clamp, Glsl.round, fract]
  have hr : (fragmentShader.main (glslAt ⟨0, 0⟩) (defaultUniforms 1 1 black)
      ⟨1 / 2, 1 / 2⟩).rgbscreen = ⟨13 / 255, 13 / 255, 13 / 255⟩ := by
    have hs2 := hs
    simp only [fragmentShader.main] at hs2 ⊢
    rw [hs2]
    norm_num [mix3, mix, vec3, defaultUniforms, Post.new]
  refine ⟨hs, hr, ?_⟩
  rw [hr]
  norm_num [vec3]

/-- C2 (amended): for every ink colour and every pixel, the ink mix
`mix(white, inkColor/255, 1 - shade)` is `inkColor/255` when the shade is 0 and
white `(1, 1, 1)` when the shade is 1. -/
theorem C2_ink_mix (G : Glsl) (u : Uniforms) (vUv : Vec2) :
    ((fragmentShader.main G u vUv).shadeCol = 0 →
      (fragmentShader.main G u vUv).rgbscreen =
        ⟨u.inkColor.r / 255, u.inkColor.g / 255, u.inkColor.b / 255⟩) ∧
    ((fragmentShader.main G u vUv).shadeCol = 1 →
      (fragmentShader.main G u vUv).rgbscreen = vec3 1) := by
  constructor
  · intro h
    simp only [fragmentShader.main] at h ⊢
    rw [h]
    simp [mix3, mix, vec3]
  · intro h
    simp only [fragmentShader.main] at h ⊢
    rw [h]
    simp [mix3, mix, vec3]

/-- C2 witness: a black capture has shade 0 and mixes to the ink colour; a
white capture with `thickness = 1/2` has shade 1 and mixes to white. -/
theorem C2_ink_mix_witness :
    ((fragmentShader.main (glslAt ⟨0, 0⟩) (defaultUniforms 1 1 black) ⟨1 / 2, 1 / 2⟩).shadeCol = 0 ∧
      (fragmentShader.main (glslAt ⟨0, 0⟩) (defaultUniforms 1 1 black) ⟨1 / 2, 1 / 2⟩).rgbscreen =
        ⟨(defaultUniforms 1 1 black).inkColor.r / 255, (defaultUniforms 1 1 black).inkColor.g / 255,
          (defaultUniforms 1 1 black).inkColor.b / 255⟩) ∧
    ((fragmentShader.main (glslAt ⟨0, 0⟩) { defaultUniforms 1 1 white with thickness := 1 / 2 }
        ⟨1 / 2, 1 / 2⟩).shadeCol = 1 ∧
      (fragmentShader.main (glslAt ⟨0, 0⟩) { defaultUniforms 1 1 white with thickness := 1 / 2 }
        ⟨1 / 2, 1 / 2⟩).rgbscreen = vec3 1) := by
  have h0 : (fragmentShader.main (glslAt ⟨0, 0⟩) (defaultUniforms 1 1 black)
      ⟨1 / 2, 1 / 2⟩).shadeCol = 0 := by
    norm_num [fragmentShader.main, defaultUniforms, glslAt, luma601, texture, solid, black,
      Vec4.rgb, Post.new, Glsl.smoothstep, Glsl.clampDiv, clamp, Glsl.round, fract]
  have h1 : (fragmentShader.main (glslAt ⟨0, 0⟩)
      { defaultUniforms 1 1 white with thickness := 1 / 2 } ⟨1 / 2, 1 / 2⟩).shadeCol = 1 := by
    norm_num [fragmentShader.main, defaultUniforms, glslAt, luma601, texture, solid, white,
      Vec4.rgb, Post.new, Glsl.smoothstep, Glsl.clampDiv, clamp, Glsl.round, Glsl.length, sqrt6, fract]
  exact ⟨⟨h0, (C2_ink_mix (glslAt ⟨0, 0⟩) (defaultUniforms 1 1 black) ⟨1 / 2, 1 / 2⟩).1 h0⟩,
    ⟨h1, (C2_ink_mix (glslAt ⟨0, 0⟩) { defaultUniforms 1 1 white with thickness := 1 / 2 }
      ⟨1 / 2, 1 / 2⟩).2 h1⟩⟩

/-! ## C3: the halftone mask -/

theorem step_zero_or_one (edge x : ℚ) : step edge x = 0 ∨ step edge x = 1 := by
  unfold step
  split_ifs
  · exact Or.inl rfl
  · exact Or.inr rfl

/-- C3: for every pixel, scale, thickness and light, when `l0 ≤ 1 - light` the
halftone mask `dots` is `(0, 0, 0)`, and when `l0 > 1 - light` all three
channels of `dots` hold one value that is 0 or 1. -/
theorem C3_halftone_mask (G : Glsl) (u : Uniforms) (vUv : Vec2) :
    ((fragmentShader.main G u vUv).l0 ≤ 1 - u.light →
      (fragmentShader.main G u vUv).dots = ⟨0, 0, 0⟩) ∧
    ((fragmentShader.main G u vUv).l0 > 1 - u.light →
      (fragmentShader.main G u vUv).dots = ⟨0, 0, 0⟩ ∨
      (fragmentShader.main G u vUv).dots = ⟨1, 1, 1⟩) := by
  constructor
  · intro h
    simp only [fragmentShader.main] at h ⊢
    simp [halftone.dots, not_lt.mpr h, vec3]
  · intro h
    simp only [fragmentShader.main] at h ⊢
    simp only [halftone.dots, if_pos h, vec3, halftone.k]
    rcases step_zero_or_one 0 (G.sqrt (G.luma (texture u.colorTexture vUv).rgb - (1 - u.light)) -
      G.length (halftone.Kuv u vUv (textureSize u.colorTexture))) with h0 | h1
    · left; rw [h0]
    · right; rw [h1]

/-- C3 witness: with the default `light = 0.38`, a black pixel (`l0 = 0`) is
outside the bright region and a white pixel (`l0 = 1`) is inside it. -/
theorem C3_halftone_mask_witness :
    ((fragmentShader.main (glslAt ⟨0, 0⟩) (defaultUniforms 1 1 black) ⟨1 / 2, 1 / 2⟩).l0
        ≤ 1 - (defaultUniforms 1 1 black).light ∧
      (fragmentShader.main (glslAt ⟨0, 0⟩) (defaultUniforms 1 1 black) ⟨1 / 2, 1 / 2⟩).dots
        = ⟨0, 0, 0⟩) ∧
    ((fragmentShader.main (glslAt ⟨0, 0⟩) (defaultUniforms 1 1 white) ⟨1 / 2, 1 / 2⟩).l0
        > 1 - (defaultUniforms 1 1 white).light ∧
      ((fragmentShader.main (glslAt ⟨0, 0⟩) (defaultUniforms 1 1 white) ⟨1 / 2, 1 / 2⟩).dots
        = ⟨0, 0, 0⟩ ∨
       (fragmentShader.main (glslAt ⟨0, 0⟩) (defaultUniforms 1 1 white) ⟨1 / 2, 1 / 2⟩).dots
        = ⟨1, 1, 1⟩)) := by
  have hb : (fragmentShader.main (glslAt ⟨0, 0⟩) (defaultUniforms 1 1 black) ⟨1 / 2, 1 / 2⟩).l0
      ≤ 1 - (defaultUniforms 1 1 black).light := by
    norm_num [fragmentShader.main, defaultUniforms, glslAt, luma601, texture, solid, black,
      Vec4.rgb, Post.new]
  have hw : (fragmentShader.main (glslAt ⟨0, 0⟩) (defaultUniforms 1 1 white) ⟨1 / 2, 1 / 2⟩).l0
      > 1 - (defaultUniforms 1 1 white).light := by
    norm_num [fragmentShader.main, defaultUniforms, glslAt, luma601, texture, solid, white,
      Vec4.rgb, Post.new]
  exact ⟨⟨hb, (C3_halftone_mask (glslAt ⟨0, 0⟩) (defaultUniforms 1 1 black) ⟨1 / 2, 1 / 2⟩).1 hb⟩,
    ⟨hw, (C3_halftone_mask (glslAt ⟨0, 0⟩) (defaultUniforms 1 1 white) ⟨1 / 2, 1 / 2⟩).2 hw⟩⟩

/-! ## C4: edge strength over a flat region -/

/-- C4 (as stated, refuted): with the constructor's `thickness = 1`, which the
control (range 0..3) allows, a pixel whose Sobel gradient is `(0, 0)` has edge
factor `smoothstep(-.5, 1.5, 1) = 27/32`, not 1. -/
theorem C4_counterexample :
    thicknessRange.allows (defaultUniforms 1 1 white).thickness ∧
    (glslAt ⟨0, 0⟩).sobel (defaultUniforms 1 1 white).normalTexture ⟨1 / 2, 1 / 2⟩
      (textureSize (defaultUniforms 1 1 white).colorTexture)
      (defaultUniforms 1 1 white).contour = ⟨0, 0⟩ ∧
    (fragmentShader.main (glslAt ⟨0, 0⟩) (defaultUniforms 1 1 white)
      ⟨1 / 2, 1 / 2⟩).normalEdge = 27 / 32 ∧
    (fragmentShader.main (glslAt ⟨0, 0⟩) (defaultUniforms 1 1 white)
      ⟨1 / 2, 1 / 2⟩).normalEdge ≠ 1 := by
  have h : (fragmentShader.main (glslAt ⟨0, 0⟩) (defaultUniforms 1 1 white)
      ⟨1 / 2, 1 / 2⟩).normalEdge = 27 / 32 := by
    norm_num [fragmentShader.main, defaultUniforms, glslAt, Post.new, Glsl.smoothstep,
      Glsl.clampDiv, clamp, Glsl.length, sqrt6]
  refine ⟨by norm_num [Range.allows, thicknessRange, defaultUniforms, Post.new], rfl, h, ?_⟩
  rw [h]
  norm_num

/-- C4 (amended): at a pixel where the Sobel gradient of the normal capture is
the zero vector, for every contour, the edge factor is 1 for every thickness
with `0 ≤ thickness ≤ 1/2` (`thickness = 0` included); it is not 1 over the
whole range of the control: for every `thickness ≥ 1`, the constructor's value
included, it is below 1. -/
theorem C4_flat_edge (G : Glsl) (u : Uniforms) (vUv : Vec2) (hsqrt : G.sqrt 0 = 0)
    (hflat : G.sobel u.normalTexture vUv (textureSize u.colorTexture) u.contour = ⟨0, 0⟩) :
    (0 ≤ u.thickness → u.thickness ≤ 1 / 2 → (fragmentShader.main G u vUv).normalEdge = 1) ∧
    (1 ≤ u.thickness → (fragmentShader.main G u vUv).normalEdge < 1) := by
  have hedge : (fragmentShader.main G u vUv).normalEdge =
      G.smoothstep (1 / 2 - u.thickness) (1 / 2 + u.thickness) 1 := by
    simp [fragmentShader.main, hflat, Glsl.length, hsqrt]
  rw [hedge]
  have hden : 1 / 2 + u.thickness - (1 / 2 - u.thickness) = 2 * u.thickness := by ring
  have hnum : 1 - (1 / 2 - u.thickness) = 1 / 2 + u.thickness := by ring
  constructor
  · intro h0 h1
    have hc : G.clampDiv (1 / 2 + u.thickness) (2 * u.thickness) = 1 := by
      rcases eq_or_lt_of_le h0 with hz | hpos
      · rw [← hz]
        simpa using clampDiv_of_pos_zero G (1 / 2 + 0) (by norm_num)
      · have ht : (1 : ℚ) ≤ (1 / 2 + u.thickness) / (2 * u.thickness) := by
          rw [le_div_iff₀ (by linarith)]
          linarith
        rw [clampDiv_of_ne G _ _ (by linarith)]
        unfold clamp
        rw [max_eq_left (by linarith), min_eq_right ht]
    simp only [Glsl.smoothstep, hden, hnum, hc]
    norm_num
  · intro h
    have hpos : (0 : ℚ) < 2 * u.thickness := by linarith
    have ht1 : (1 / 2 + u.thickness) / (2 * u.thickness) < 1 := by
      rw [div_lt_one hpos]
      linarith
    have ht0 : (0 : ℚ) ≤ (1 / 2 + u.thickness) / (2 * u.thickness) :=
      div_nonneg (by linarith) hpos.le
    have hc : G.clampDiv (1 / 2 + u.thickness) (2 * u.thickness) =
        (1 / 2 + u.thickness) / (2 * u.thickness) := by
      rw [clampDiv_of_ne G _ _ (ne_of_gt hpos)]
      unfold clamp
      rw [max_eq_left ht0, min_eq_left ht1.le]
    simp only [Glsl.smoothstep, hden, hnum, hc]
    nlinarith [mul_pos (mul_pos (sub_pos.mpr ht1) (sub_pos.mpr ht1))
      (by linarith : (0 : ℚ) < 1 + 2 * ((1 / 2 + u.thickness) / (2 * u.thickness)))]

/-- C4 witness: a flat normal capture with `thickness = 0`, with
`thickness = 1/2`, and with the constructor's `thickness = 1`. -/
theorem C4_flat_edge_witness :
    ((0 : ℚ) ≤ 0 ∧ (0 : ℚ) ≤ 1 / 2 ∧
      (fragmentShader.main (glslAt ⟨0, 0⟩) { defaultUniforms 1 1 white with thickness := 0 }
        ⟨1 / 2, 1 / 2⟩).normalEdge = 1) ∧
    ((0 : ℚ) ≤ 1 / 2 ∧ (1 / 2 : ℚ) ≤ 1 / 2 ∧
      (fragmentShader.main (glslAt ⟨0, 0⟩) { defaultUniforms 1 1 white with thickness := 1 / 2 }
        ⟨1 / 2, 1 / 2⟩).normalEdge = 1) ∧
    ((1 : ℚ) ≤ 1 ∧
      (fragmentShader.main (glslAt ⟨0, 0⟩) (defaultUniforms 1 1 white)
        ⟨1 / 2, 1 / 2⟩).normalEdge < 1) :=
  ⟨⟨le_refl _, by norm_num,
      (C4_flat_edge (glslAt ⟨0, 0⟩) { defaultUniforms 1 1 white with thickness := 0 }
        ⟨1 / 2, 1 / 2⟩ (by norm_num [glslAt, sqrt6]) rfl).1 (le_refl _) (by norm_num)⟩,
    ⟨by norm_num, le_refl _,
      (C4_flat_edge (glslAt ⟨0, 0⟩) { defaultUniforms 1 1 white with thickness := 1 / 2 }
        ⟨1 / 2, 1 / 2⟩ (by norm_num [glslAt, sqrt6]) rfl).1 (by norm_num) (le_refl _)⟩,
    ⟨le_refl _,
      (C4_flat_edge (glslAt ⟨0, 0⟩) (defaultUniforms 1 1 white) ⟨1 / 2, 1 / 2⟩
        (by norm_num [glslAt, sqrt6]) rfl).2 (by norm_num [defaultUniforms, Post.new])⟩⟩

/-! ## C5: contour pixels -/

/-- C5 (as stated, refuted): a white 10x10 capture with the constructor's
uniforms, a normal gradient `(3, 4)` and the pixel `vUv = (0.05, 0.95)`.  The
edge factor is 0, ink over paper is `13/255` per channel, but the pixel is
bright (`l0 = 1 > 1 - 0.38`) and a halftone dot covers it, so the final colour
is white. -/
theorem C5_counterexample :
    (fragmentShader.main (glslAt ⟨3, 4⟩) (defaultUniforms 10 10 white)
      ⟨1 / 20, 19 / 20⟩).normalEdge = 0 ∧
    (fragmentShader.main (glslAt ⟨3, 4⟩) (defaultUniforms 10 10 white)
      ⟨1 / 20, 19 / 20⟩).fragColor = ⟨1, 1, 1, 1⟩ ∧
    min (fragmentShader.main (glslAt ⟨3, 4⟩) (defaultUniforms 10 10 white)
      ⟨1 / 20, 19 / 20⟩).paper.r ((defaultUniforms 10 10 white).inkColor.r / 255) = 13 / 255 ∧
    (fragmentShader.main (glslAt ⟨3, 4⟩) (defaultUniforms 10 10 white)
      ⟨1 / 20, 19 / 20⟩).fragColor.r ≠
    min (fragmentShader.main (glslAt ⟨3, 4⟩) (defaultUniforms 10 10 white)
      ⟨1 / 20, 19 / 20⟩).paper.r ((defaultUniforms 10 10 white).inkColor.r / 255) := by
  have he : (fragmentShader.main (glslAt ⟨3, 4⟩) (defaultUniforms 10 10 white)
      ⟨1 / 20, 19 / 20⟩).normalEdge = 0 := by
    norm_num [fragmentShader.main, defaultUniforms, glslAt, Post.new, Glsl.smoothstep, Glsl.clampDiv, clamp,
      Glsl.length, sqrt6]
  have hd : halftone.dots (glslAt ⟨3, 4⟩) (defaultUniforms 10 10 white) ⟨1 / 20, 19 / 20⟩
      ⟨10, 10⟩ 1 = ⟨1, 1, 1⟩ := by
    norm_num [halftone.dots, halftone.k, halftone.Kuv, halftone.w, mix, mul, fract, step, vec3,
      defaultUniforms, glslAt, Post.new, Glsl.length, sqrt6]
  have hl : luma601 (Vec4.rgb white) = 1 := by norm_num [luma601, Vec4.rgb, white]
  have hf : (fragmentShader.main (glslAt ⟨3, 4⟩) (defaultUniforms 10 10 white)
      ⟨1 / 20, 19 / 20⟩).fragColor = ⟨1, 1, 1, 1⟩ := by
    have hd2 : halftone.dots (glslAt ⟨3, 4⟩) (defaultUniforms 10 10 white) ⟨1 / 20, 19 / 20⟩
        (textureSize (defaultUniforms 10 10 white).colorTexture)
        ((glslAt ⟨3, 4⟩).luma (texture (defaultUniforms 10 10 white).colorTexture
          ⟨1 / 20, 19 / 20⟩).rgb) = ⟨1, 1, 1⟩ := by
      have e1 : textureSize (defaultUniforms 10 10 white).colorTexture = ⟨10, 10⟩ := by
        norm_num [textureSize, defaultUniforms, solid]
      have e2 : (glslAt ⟨3, 4⟩).luma (texture (defaultUniforms 10 10 white).colorTexture
          ⟨1 / 20, 19 / 20⟩).rgb = 1 := hl
      rw [e1, e2]
      exact hd
    simp only [fragmentShader.main, hd2]
    norm_num [blendScreen]
  have hp : min (fragmentShader.main (glslAt ⟨3, 4⟩) (defaultUniforms 10 10 white)
      ⟨1 / 20, 19 / 20⟩).paper.r ((defaultUniforms 10 10 white).inkColor.r / 255) = 13 / 255 := by
    norm_num [fragmentShader.main, defaultUniforms, texture, solid, white, Post.new]
  refine ⟨he, hf, hp, ?_⟩
  rw [hp, hf]
  norm_num

/-- C5 (amended): at a pixel whose edge factor is 0, whatever its luminance
and shade band, the colour after the darken blend is ink over paper, per
channel `min(paper, inkColor/255)`; this is also the final colour when no
halftone dot covers the pixel (`dots = 0`, in particular whenever
`l0 ≤ 1 - light`), and where a halftone dot covers the pixel (`dots = 1`) the
final colour is white. -/
theorem C5_contour_ink (G : Glsl) (u : Uniforms) (vUv : Vec2)
    (hedge : (fragmentShader.main G u vUv).normalEdge = 0) :
    (fragmentShader.main G u vUv).fragColor0 =
      ⟨min (fragmentShader.main G u vUv).paper.r (u.inkColor.r / 255),
       min (fragmentShader.main G u vUv).paper.g (u.inkColor.g / 255),
       min (fragmentShader.main G u vUv).paper.b (u.inkColor.b / 255)⟩ ∧
    ((fragmentShader.main G u vUv).dots = ⟨0, 0, 0⟩ →
      (fragmentShader.main G u vUv).fragColor =
        ⟨min (fragmentShader.main G u vUv).paper.r (u.inkColor.r / 255),
         min (fragmentShader.main G u vUv).paper.g (u.inkColor.g / 255),
         min (fragmentShader.main G u vUv).paper.b (u.inkColor.b / 255), 1⟩) ∧
    ((fragmentShader.main G u vUv).l0 ≤ 1 - u.light →
      (fragmentShader.main G u vUv).dots = ⟨0, 0, 0⟩) ∧
    ((fragmentShader.main G u vUv).dots = ⟨1, 1, 1⟩ →
      (fragmentShader.main G u vUv).fragColor = ⟨1, 1, 1, 1⟩) := by
  have h0 : (fragmentShader.main G u vUv).fragColor0 =
      ⟨min (fragmentShader.main G u vUv).paper.r (u.inkColor.r / 255),
       min (fragmentShader.main G u vUv).paper.g (u.inkColor.g / 255),
       min (fragmentShader.main G u vUv).paper.b (u.inkColor.b / 255)⟩ := by
    simp only [fragmentShader.main] at hedge ⊢
    rw [hedge]
    simp [blendDarken, mix3, mix, vec3, Vec4.rgb, min_comm]
  have hfc : (fragmentShader.main G u vUv).fragColor =
      ⟨(blendScreen (fragmentShader.main G u vUv).fragColor0
          (fragmentShader.main G u vUv).dots 1).r,
        (blendScreen (fragmentShader.main G u vUv).fragColor0
          (fragmentShader.main G u vUv).dots 1).g,
        (blendScreen (fragmentShader.main G u vUv).fragColor0
          (fragmentShader.main G u vUv).dots 1).b, 1⟩ := rfl
  refine ⟨h0, ?_, ?_, ?_⟩
  · intro hd
    rw [hfc, hd, h0]
    simp [blendScreen]
  · intro hl
    simp only [fragmentShader.main] at hl ⊢
    simp [halftone.dots, not_lt.mpr hl, vec3]
  · intro hd
    rw [hfc, hd]
    simp [blendScreen]

/-- C5 witness: a black 1x1 capture with normal gradient `(3, 4)`: the edge
factor is 0 and the final colour is `13/255` per channel, ink over white paper. -/
theorem C5_contour_ink_witness :
    (fragmentShader.main (glslAt ⟨3, 4⟩) (defaultUniforms 1 1 black)
      ⟨1 / 2, 1 / 2⟩).normalEdge = 0 ∧
    (fragmentShader.main (glslAt ⟨3, 4⟩) (defaultUniforms 1 1 black)
      ⟨1 / 2, 1 / 2⟩).fragColor = ⟨13 / 255, 13 / 255, 13 / 255, 1⟩ := by
  have he : (fragmentShader.main (glslAt ⟨3, 4⟩) (defaultUniforms 1 1 black)
      ⟨1 / 2, 1 / 2⟩).normalEdge = 0 := by
    norm_num [fragmentShader.main, defaultUniforms, glslAt, Post.new, Glsl.smoothstep, Glsl.clampDiv, clamp,
      Glsl.length, sqrt6]
  have hl : (fragmentShader.main (glslAt ⟨3, 4⟩) (defaultUniforms 1 1 black)
      ⟨1 / 2, 1 / 2⟩).l0 ≤ 1 - (defaultUniforms 1 1 black).light := by
    norm_num [fragmentShader.main, defaultUniforms, glslAt, luma601, texture, solid, black,
      Vec4.rgb, Post.new]
  have h := C5_contour_ink (glslAt ⟨3, 4⟩) (defaultUniforms 1 1 black) ⟨1 / 2, 1 / 2⟩ he
  refine ⟨he, ?_⟩
  rw [h.2.1 (h.2.2.1 hl)]
  norm_num [fragmentShader.main, defaultUniforms, texture, solid, white, Post.new]

/-! ## C6: the finishing pass without aberration -/

/-- C6: with `delta = 0`, for every pixel coordinate `vUv` and every input
texture of size at least 1x1, the three `texture` calls of the finishing
shader sample at `vUv` and the output is `(c, c, c, 1)` with `c` the
luminance of the input texel at `vUv`. -/
theorem C6_zero_delta (G : Glsl) (colorTexture : Sampler) (vUv : Vec2)
    (_hw : 1 ≤ colorTexture.width) (_hh : 1 ≤ colorTexture.height) :
    (finalFragmentShader.main G colorTexture 0 vUv).uv1 = vUv ∧
    (finalFragmentShader.main G colorTexture 0 vUv).uv2 = vUv ∧
    (finalFragmentShader.main G colorTexture 0 vUv).uv3 = vUv ∧
    (finalFragmentShader.main G colorTexture 0 vUv).c = G.luma (texture colorTexture vUv).rgb ∧
    (finalFragmentShader.main G colorTexture 0 vUv).fragColor =
      ⟨G.luma (texture colorTexture vUv).rgb, G.luma (texture colorTexture vUv).rgb,
        G.luma (texture colorTexture vUv).rgb, 1⟩ := by
  simp [finalFragmentShader.main, Vec4.rgb]

/-- C6 witness: a 4x3 texture of the colour `(1/5, 2/5, 3/5, 1)` sampled at
`vUv = (1/4, 3/4)`. -/
theorem C6_zero_delta_witness :
    (1 ≤ (solid 4 3 ⟨1 / 5, 2 / 5, 3 / 5, 1⟩).width ∧
      1 ≤ (solid 4 3 ⟨1 / 5, 2 / 5, 3 / 5, 1⟩).height) ∧
    (finalFragmentShader.main (glslAt ⟨0, 0⟩) (solid 4 3 ⟨1 / 5, 2 / 5, 3 / 5, 1⟩) 0
      ⟨1 / 4, 3 / 4⟩).fragColor =
      ⟨luma601 ⟨1 / 5, 2 / 5, 3 / 5⟩, luma601 ⟨1 / 5, 2 / 5, 3 / 5⟩,
        luma601 ⟨1 / 5, 2 / 5, 3 / 5⟩, 1⟩ :=
  ⟨⟨by decide, by decide⟩,
    (C6_zero_delta (glslAt ⟨0, 0⟩) (solid 4 3 ⟨1 / 5, 2 / 5, 3 / 5, 1⟩) ⟨1 / 4, 3 / 4⟩
      (by decide) (by decide)).2.2.2.2⟩

/-! ## C9: the halftone width factor -/

/-- C9 (as stated, refuted): `thickness = 3`, the top of the control's range,
gives `w = 3`, which is outside `[0, 1]` and is not `clamp(3, 0, 1) = 1`. -/
theorem C9_counterexample :
    thicknessRange.allows 3 ∧
    halftone.w { defaultUniforms 1 1 white with thickness := 3 } = 3 ∧
    clamp 3 0 1 = 1 ∧
    halftone.w { defaultUniforms 1 1 white with thickness := 3 } ≠ clamp 3 0 1 ∧
    ¬ halftone.w { defaultUniforms 1 1 white with thickness := 3 } ≤ 1 := by
  have hw : halftone.w { defaultUniforms 1 1 white with thickness := 3 } = 3 := by
    norm_num [halftone.w, mix]
  have hc : clamp 3 0 1 = 1 := by norm_num [clamp]
  refine ⟨by norm_num [Range.allows, thicknessRange], hw, hc, ?_, ?_⟩
  · rw [hw, hc]; norm_num
  · rw [hw]; norm_num

/-- C9 (amended): for every value of the thickness uniform, the factor `w`
is `mix(0, 1, thickness) = thickness` itself, not clamped; it equals
`thickness` clamped to `[0, 1]`, and lies in `[0, 1]`, exactly when
`0 ≤ thickness ≤ 1`. -/
theorem C9_width_factor (u : Uniforms) :
    halftone.w u = u.thickness ∧
    (halftone.w u = clamp u.thickness 0 1 ↔ 0 ≤ u.thickness ∧ u.thickness ≤ 1) ∧
    (0 ≤ halftone.w u ∧ halftone.w u ≤ 1 ↔ 0 ≤ u.thickness ∧ u.thickness ≤ 1) := by
  have hw : halftone.w u = u.thickness := by
    simp [halftone.w, mix]
  refine ⟨hw, ?_, ?_⟩
  · rw [hw]
    constructor
    · intro h
      rw [h]
      exact ⟨clamp_unit_nonneg _, clamp_unit_le_one _⟩
    · rintro ⟨h0, h1⟩
      unfold clamp
      rw [max_eq_left h0, min_eq_left h1]
  · rw [hw]

/-! ## C7, C8, C10: the `Post` class -/

theorem call_renderPass_shader (s : Post × Renderer) (c : Call) :
    (Post.call s c).1.renderPass.shader = s.1.renderPass.shader := by
  cases c <;> rfl

theorem calls_renderPass_shader (cs : List Call) (s : Post × Renderer) :
    (Post.calls s cs).1.renderPass.shader = s.1.renderPass.shader := by
  induction cs generalizing s with
  | nil => rfl
  | cons c cs ih =>
    simp only [Post.calls, List.foldl_cons] at ih ⊢
    rw [ih, call_renderPass_shader]

theorem call_captures_equal (s : Post × Renderer) (c : Call)
    (h : s.1.colorFBO = s.1.normalFBO) :
    (Post.call s c).1.colorFBO = (Post.call s c).1.normalFBO := by
  cases c with
  | setSize w h => rfl
  | render scene camera => exact h

theorem calls_captures_equal (cs : List Call) (s : Post × Renderer)
    (h : s.1.colorFBO = s.1.normalFBO) :
    (Post.calls s cs).1.colorFBO = (Post.calls s cs).1.normalFBO := by
  induction cs generalizing s with
  | nil => exact h
  | cons c cs ih =>
    simp only [Post.calls, List.foldl_cons] at ih ⊢
    exact ih _ (call_captures_equal s c h)

theorem calls_render_only (cs : List Call) (s : Post × Renderer)
    (h : ∀ c ∈ cs, ∀ w h, c ≠ Call.setSize w h) :
    (Post.calls s cs).1 = s.1 := by
  induction cs generalizing s with
  | nil => rfl
  | cons c cs ih =>
    simp only [Post.calls, List.foldl_cons] at ih ⊢
    rw [ih _ (fun c' hc' => h c' (List.mem_cons_of_mem _ hc'))]
    cases c with
    | setSize w h' => exact absurd rfl (h _ (List.mem_cons_self _ _) w h')
    | render scene camera => rfl

/-- C7 (as stated, refuted): a scene that enters `render` with its own
override material `other 7` leaves it with `overrideMaterial = null`. -/
theorem C7_counterexample :
    ((Post.new 1 1).render ⟨none, []⟩ ⟨0, some (Material.other 7)⟩ ⟨0⟩).2.2.overrideMaterial
      = none ∧
    ((Post.new 1 1).render ⟨none, []⟩ ⟨0, some (Material.other 7)⟩ ⟨0⟩).2.2.overrideMaterial
      ≠ (⟨0, some (Material.other 7)⟩ : Scene).overrideMaterial := by
  constructor
  · rfl
  · simp [Post.render]

/-- C7 (amended): for every scene, after `Post.render(scene, camera)` returns
the scene's `overrideMaterial` is `null` and its contents are untouched; this
is the value it had before the call exactly when the scene had no override
material before the call. -/
theorem C7_override_reset (p : Post) (r : Renderer) (scene : Scene) (camera : Camera) :
    (p.render r scene camera).2.2.overrideMaterial = none ∧
    (p.render r scene camera).2.2.contents = scene.contents ∧
    ((p.render r scene camera).2.2.overrideMaterial = scene.overrideMaterial ↔
      scene.overrideMaterial = none) := by
  refine ⟨rfl, rfl, ?_⟩
  show none = scene.overrideMaterial ↔ scene.overrideMaterial = none
  exact eq_comm

/-- C8: in every state reached from the constructor by `setSize` and `render`
calls the colour capture and the normal capture have the same dimensions, 1x1
as long as no `setSize` was called; right after `setSize(w, h)` the four
owned surfaces all have size `(w, h)`; and `render` changes no size. -/
theorem C8_sizes (pw ph : ℕ) (r : Renderer) (cs : List Call) :
    (Post.calls (Post.new pw ph, r) cs).1.colorFBO =
      (Post.calls (Post.new pw ph, r) cs).1.normalFBO ∧
    ((∀ c ∈ cs, ∀ w h, c ≠ Call.setSize w h) →
      (Post.calls (Post.new pw ph, r) cs).1.colorFBO = ⟨1, 1⟩ ∧
      (Post.calls (Post.new pw ph, r) cs).1.normalFBO = ⟨1, 1⟩) ∧
    (∀ w h : ℕ,
      ((Post.calls (Post.new pw ph, r) cs).1.setSize w h).sizes =
        [(w, h), (w, h), (w, h), (w, h)]) ∧
    (∀ (scene : Scene) (camera : Camera),
      ((Post.calls (Post.new pw ph, r) cs).1.render
        (Post.calls (Post.new pw ph, r) cs).2 scene camera).1.sizes =
        (Post.calls (Post.new pw ph, r) cs).1.sizes) := by
  refine ⟨calls_captures_equal cs _ rfl, ?_, ?_, ?_⟩
  · intro h
    rw [calls_render_only cs _ h]
    exact ⟨rfl, rfl⟩
  · intro w h
    rfl
  · intro scene camera
    rfl

/-- C8 witness: two `render` calls after the constructor leave both captures
at 1x1. -/
theorem C8_sizes_witness :
    (∀ c ∈ [Call.render ⟨0, none⟩ ⟨0⟩, Call.render ⟨1, none⟩ ⟨0⟩],
      ∀ w h, c ≠ Call.setSize w h) ∧
    (Post.calls (Post.new 1 1, ⟨none, []⟩)
      [Call.render ⟨0, none⟩ ⟨0⟩, Call.render ⟨1, none⟩ ⟨0⟩]).1.colorFBO = ⟨1, 1⟩ ∧
    (Post.calls (Post.new 1 1, ⟨none, []⟩)
      [Call.render ⟨0, none⟩ ⟨0⟩, Call.render ⟨1, none⟩ ⟨0⟩]).1.normalFBO = ⟨1, 1⟩ :=
  have h : ∀ c ∈ [Call.render ⟨0, none⟩ ⟨0⟩, Call.render ⟨1, none⟩ ⟨0⟩],
      ∀ w h, c ≠ Call.setSize w h := by
    intro c hc w h
    simp only [List.mem_cons, List.mem_singleton, List.not_mem_nil, or_false] at hc
    rcases hc with rfl | rfl <;> simp
  ⟨h, (C8_sizes 1 1 ⟨none, []⟩ [Call.render ⟨0, none⟩ ⟨0⟩, Call.render ⟨1, none⟩ ⟨0⟩]).2.1 h⟩

/-- C10 (as stated, refuted): a scene handed to `render` with the caller's
override material `other 3` is drawn into the colour capture buffer with that
override, not with its ordinary materials. -/
theorem C10_counterexample :
    ((Post.new 1 1).render ⟨none, []⟩ ⟨0, some (Material.other 3)⟩ ⟨0⟩).2.1.draws =
      [Draw.scene (some Target.colorFBO) 0 (some (Material.other 3)) ⟨0⟩,
       Draw.scene (some Target.normalFBO) 0 (some Material.normalMat) ⟨0⟩,
       Draw.pass Program.composite true] ∧
    ((Post.new 1 1).render ⟨none, []⟩ ⟨0, some (Material.other 3)⟩ ⟨0⟩).2.1.draws.head? ≠
      some (Draw.scene (some Target.colorFBO) 0 none ⟨0⟩) := by
  constructor
  · rfl
  · simp [Post.render, Renderer.setRenderTarget, Renderer.render, ShaderPass.render]

/-- C10 (amended): every call `Post.render(scene, camera)` on a `Post` reached
from the constructor issues exactly three draws, in this order: the scene, with
the `overrideMaterial` it has on entry (its ordinary materials when that is
`null`), into the colour capture buffer; the same scene and camera with the
override `normalMat` into the normal capture buffer; the composite pass.  No
scene draw has render target `null`, the finishing pass is not among the draws,
and the render target is `null` on return. -/
theorem C10_render_sequence (pw ph : ℕ) (r : Renderer) (cs : List Call) (scene : Scene)
    (camera : Camera) :
    ((Post.calls (Post.new pw ph, r) cs).1.render
        (Post.calls (Post.new pw ph, r) cs).2 scene camera).2.1.draws =
      (Post.calls (Post.new pw ph, r) cs).2.draws ++
        [Draw.scene (some Target.colorFBO) scene.contents scene.overrideMaterial camera,
         Draw.scene (some Target.normalFBO) scene.contents (some Material.normalMat) camera,
         Draw.pass Program.composite true] ∧
    ((Post.calls (Post.new pw ph, r) cs).1.render
        (Post.calls (Post.new pw ph, r) cs).2 scene camera).2.1.target = none := by
  have hshader := calls_renderPass_shader cs (Post.new pw ph, r)
  constructor
  · simp only [Post.render, Renderer.setRenderTarget, Renderer.render, ShaderPass.render,
      hshader, List.append_assoc, List.cons_append, List.nil_append]
    rfl
  · rfl

end PostCartoon
